import Mathlib

/-!
Verification of the medconsult consultation-coordinator backend
(src/backend/server.py) against its natural-language specification.

The embedding models the four record kinds as Lean structures and the
MongoDB collections as lists kept in insertion order: `find_one` becomes
`List.find?` (first match), `update_one` updates the first match,
`update_many` maps over all matches, `insert_one` appends. ISO-8601 UTC
timestamp strings compare lexicographically in the source, which agrees
with chronological order, so timestamps are modelled as `Nat`.
`HTTPException` carries the status code and detail string exactly as the
handlers raise them. Each route handler becomes a pure function from the
store (plus the authenticated actor id, the current time and the fresh
uuid, which the source draws from the environment) to a result paired
with the resulting store; an error result is a raised `HTTPException`.
-/

namespace MedConsult

inductive ScheduleStatus
  | UPCOMING
  | ONLINE
  | COMPLETED
  deriving DecidableEq, Repr

inductive QueueStatus
  | WAITING
  | READY
  | IN_CALL
  | DONE
  deriving DecidableEq, Repr

inductive CallSessionStatus
  | INVITED
  | CONFIRMED
  | ACTIVE
  | ENDED
  | DECLINED
  | EXPIRED
  deriving DecidableEq, Repr

/-- String form of a call-session status, as stored by the source and as
interpolated into the `Cannot confirm call in status: {...}` detail. -/
def CallSessionStatus.toString : CallSessionStatus → String
  | .INVITED => "INVITED"
  | .CONFIRMED => "CONFIRMED"
  | .ACTIVE => "ACTIVE"
  | .ENDED => "ENDED"
  | .DECLINED => "DECLINED"
  | .EXPIRED => "EXPIRED"

structure Schedule where
  id : String
  doctorId : String
  status : ScheduleStatus
  deriving DecidableEq, Repr

structure QueueEntry where
  id : String
  scheduleId : String
  patientId : String
  queueNumber : Nat
  status : QueueStatus
  isReady : Bool
  joinedAt : Nat
  deriving DecidableEq, Repr

structure CallSession where
  id : String
  scheduleId : String
  doctorId : String
  patientId : String
  status : CallSessionStatus
  createdAt : Nat
  confirmedAt : Option Nat
  endedAt : Option Nat
  doctorPeerId : Option String
  patientPeerId : Option String
  deriving DecidableEq, Repr

/-- The record store: the three collections the coordinator reads and
writes (audit_logs and users are write-only / auth-only side channels). -/
structure DB where
  schedules : List Schedule
  queue_entries : List QueueEntry
  call_sessions : List CallSession
  deriving DecidableEq, Repr

structure HTTPException where
  status_code : Nat
  detail : String
  deriving DecidableEq, Repr

/-- Mongo `update_one`: rewrite the first record matching the filter. -/
def updateFirst {α : Type} (q : α → Bool) (g : α → α) : List α → List α
  | [] => []
  | x :: xs => if q x then g x :: xs else x :: updateFirst q g xs

/-- Mongo `update_many`: rewrite every record matching the filter. -/
def updateMany {α : Type} (q : α → Bool) (g : α → α) (l : List α) : List α :=
  l.map (fun x => if q x then g x else x)

/-- The active set `{INVITED, CONFIRMED, ACTIVE}` used by the
`status: {$in: [...]}` filters of start_call and end_practice. -/
def isActiveStatus (s : CallSessionStatus) : Bool :=
  s == .INVITED || s == .CONFIRMED || s == .ACTIVE

/-- Filter of the active-call check: same schedule, status in the active set. -/
def activePred (schedule_id : String) (c : CallSession) : Bool :=
  c.scheduleId == schedule_id && isActiveStatus c.status

/-- The stale-invitation sweep of start_call: every INVITED session of the
schedule with `createdAt < now - 60` becomes EXPIRED with endedAt set. -/
def sweepExpired (db : DB) (schedule_id : String) (now : Nat) : DB :=
  { db with
      call_sessions :=
        updateMany
          (fun c => c.scheduleId == schedule_id && c.status == CallSessionStatus.INVITED &&
            decide (c.createdAt < now - 60))
          (fun c => { c with status := CallSessionStatus.EXPIRED, endedAt := some now })
          db.call_sessions }

/-- The active-call check of start_call: `find_one` on the active set. -/
def activeCallCheck (db : DB) (schedule_id : String) : Option CallSession :=
  db.call_sessions.find? (activePred schedule_id)

/-- The freshly inserted INVITED call session of start_call. -/
def newCallSession (schedule_id doctorId patientId : String) (now : Nat)
    (newId : String) : CallSession :=
  { id := newId, scheduleId := schedule_id, doctorId := doctorId,
    patientId := patientId, status := .INVITED, createdAt := now,
    confirmedAt := none, endedAt := none, doctorPeerId := none,
    patientPeerId := none }

/-- Mongo `insert_one` into call_sessions. -/
def insertCallSession (db : DB) (c : CallSession) : DB :=
  { db with
      call_sessions := db.call_sessions ++ [c] }

/-- POST /doctor/schedules/{id}/start. -/
def start_practice (db : DB) (schedule_id doctorId : String) :
    Except HTTPException Unit × DB :=
  match db.schedules.find? (fun s => s.id == schedule_id && s.doctorId == doctorId) with
  | none => (.error ⟨404, "Schedule not found"⟩, db)
  | some schedule =>
    if schedule.status == ScheduleStatus.ONLINE then
      (.error ⟨400, "Practice already started"⟩, db)
    else if schedule.status == ScheduleStatus.COMPLETED then
      (.error ⟨400, "Practice already completed"⟩, db)
    else
      (.ok (),
        { db with
            schedules :=
              updateFirst (fun s => s.id == schedule_id)
                (fun s => { s with status := ScheduleStatus.ONLINE }) db.schedules })

/-- POST /doctor/schedules/{id}/end: completes the schedule and force-ends
every call session of the schedule still in the active set. -/
def end_practice (db : DB) (schedule_id doctorId : String) (now : Nat) :
    Except HTTPException Unit × DB :=
  match db.schedules.find? (fun s => s.id == schedule_id && s.doctorId == doctorId) with
  | none => (.error ⟨404, "Schedule not found"⟩, db)
  | some _ =>
    (.ok (),
      { db with
          schedules :=
            updateFirst (fun s => s.id == schedule_id)
              (fun s => { s with status := ScheduleStatus.COMPLETED }) db.schedules,
          call_sessions :=
            updateMany (activePred schedule_id)
              (fun c => { c with status := CallSessionStatus.ENDED, endedAt := some now })
              db.call_sessions })

/-- POST /doctor/schedules/{id}/start-call (Invite): schedule must be
ONLINE, then the stale sweep, then the active-call check, then the
patient-readiness check, then the insert of the INVITED session. -/
def start_call (db : DB) (schedule_id doctorId patientId : String) (now : Nat)
    (newId : String) : Except HTTPException String × DB :=
  match db.schedules.find? (fun s => s.id == schedule_id && s.doctorId == doctorId) with
  | none => (.error ⟨404, "Schedule not found"⟩, db)
  | some schedule =>
    if schedule.status == ScheduleStatus.ONLINE then
      let db1 := sweepExpired db schedule_id now
      match activeCallCheck db1 schedule_id with
      | some _ => (.error ⟨400, "Another call is already active"⟩, db1)
      | none =>
        match db1.queue_entries.find?
            (fun x => x.scheduleId == schedule_id && x.patientId == patientId) with
        | none => (.error ⟨404, "Patient not in queue"⟩, db1)
        | some entry =>
          if entry.status == QueueStatus.READY then
            (.ok newId,
              insertCallSession db1 (newCallSession schedule_id doctorId patientId now newId))
          else
            (.error ⟨400, "Patient is not ready"⟩, db1)
    else
      (.error ⟨400, "Practice not online"⟩, db)

/-- Largest queueNumber among the schedule's entries, 0 when there are
none: models `find_one(..., sort=[("queueNumber", -1)])`. -/
def maxQueueNumber (entries : List QueueEntry) (schedule_id : String) : Nat :=
  (entries.filter (fun q => q.scheduleId == schedule_id)).foldr
    (fun q m => max q.queueNumber m) 0

/-- The number join_queue assigns: last queueNumber + 1, defaulting to 1. -/
def nextQueueNumber (entries : List QueueEntry) (schedule_id : String) : Nat :=
  maxQueueNumber entries schedule_id + 1

/-- POST /patient/schedules/{id}/join-queue. -/
def join_queue (db : DB) (schedule_id patientId : String) (now : Nat)
    (newId : String) : Except HTTPException Nat × DB :=
  match db.schedules.find? (fun s => s.id == schedule_id) with
  | none => (.error ⟨404, "Schedule not found"⟩, db)
  | some _ =>
    match db.queue_entries.find?
        (fun x => x.scheduleId == schedule_id && x.patientId == patientId) with
    | some _ => (.error ⟨400, "Already in queue"⟩, db)
    | none =>
      let n := nextQueueNumber db.queue_entries schedule_id
      (.ok n,
        { db with
          queue_entries := db.queue_entries ++
            [{ id := newId, scheduleId := schedule_id, patientId := patientId,
               queueNumber := n, status := QueueStatus.WAITING, isReady := false,
               joinedAt := now }] })

/-- POST /patient/schedules/{id}/toggle-ready (SetReady). -/
def toggle_ready (db : DB) (schedule_id patientId : String) (isReady : Bool) :
    Except HTTPException Unit × DB :=
  match db.queue_entries.find?
      (fun x => x.scheduleId == schedule_id && x.patientId == patientId) with
  | none => (.error ⟨404, "Not in queue"⟩, db)
  | some entry =>
    if entry.status == QueueStatus.DONE then
      (.error ⟨400, "Consultation already completed"⟩, db)
    else if entry.status == QueueStatus.IN_CALL then
      (.error ⟨400, "Currently in call"⟩, db)
    else
      (.ok (),
        { db with
            queue_entries :=
              updateFirst (fun x => x.scheduleId == schedule_id && x.patientId == patientId)
                (fun x => { x with
                    status := if isReady then QueueStatus.READY else QueueStatus.WAITING,
                    isReady := isReady })
                db.queue_entries })

/-- POST /patient/call-sessions/{id}/confirm: only from INVITED; cascades
the queue entry to IN_CALL (without touching isReady). -/
def confirm_call (db : DB) (call_session_id patientId : String) (now : Nat) :
    Except HTTPException Unit × DB :=
  match db.call_sessions.find?
      (fun c => c.id == call_session_id && c.patientId == patientId) with
  | none => (.error ⟨404, "Call session not found"⟩, db)
  | some session =>
    if session.status == CallSessionStatus.INVITED then
      (.ok (),
        { db with
            call_sessions :=
              updateFirst (fun c => c.id == call_session_id)
                (fun c => { c with status := CallSessionStatus.CONFIRMED, confirmedAt := some now })
                db.call_sessions,
            queue_entries :=
              updateFirst (fun x => x.scheduleId == session.scheduleId &&
                  x.patientId == patientId)
                (fun x => { x with status := QueueStatus.IN_CALL }) db.queue_entries })
    else
      (.error ⟨400, "Cannot confirm call in status: " ++ session.status.toString⟩, db)

/-- POST /patient/call-sessions/{id}/decline: only from INVITED; resets
the queue entry to WAITING with isReady false. -/
def decline_call (db : DB) (call_session_id patientId : String) (now : Nat) :
    Except HTTPException Unit × DB :=
  match db.call_sessions.find?
      (fun c => c.id == call_session_id && c.patientId == patientId) with
  | none => (.error ⟨404, "Call session not found"⟩, db)
  | some session =>
    if session.status == CallSessionStatus.INVITED then
      (.ok (),
        { db with
            call_sessions :=
              updateFirst (fun c => c.id == call_session_id)
                (fun c => { c with status := CallSessionStatus.DECLINED, endedAt := some now })
                db.call_sessions,
            queue_entries :=
              updateFirst (fun x => x.scheduleId == session.scheduleId &&
                  x.patientId == patientId)
                (fun x => { x with status := QueueStatus.WAITING, isReady := false })
                db.queue_entries })
    else
      (.error ⟨400, "Cannot decline call in status: " ++ session.status.toString⟩, db)

/-- POST /doctor/call-sessions/{id}/end: no status precondition in the
source; sets ENDED + endedAt and cascades the queue entry to DONE. -/
def end_call_doctor (db : DB) (call_session_id doctorId : String) (now : Nat) :
    Except HTTPException Unit × DB :=
  match db.call_sessions.find?
      (fun c => c.id == call_session_id && c.doctorId == doctorId) with
  | none => (.error ⟨404, "Call session not found"⟩, db)
  | some session =>
    (.ok (),
      { db with
          call_sessions :=
            updateFirst (fun c => c.id == call_session_id)
              (fun c => { c with status := CallSessionStatus.ENDED, endedAt := some now })
              db.call_sessions,
          queue_entries :=
            updateFirst (fun x => x.scheduleId == session.scheduleId &&
                x.patientId == session.patientId)
              (fun x => { x with status := QueueStatus.DONE }) db.queue_entries })

/-- POST /patient/call-sessions/{id}/end: same shape as the doctor's end,
also without a status precondition. -/
def end_call_patient (db : DB) (call_session_id patientId : String) (now : Nat) :
    Except HTTPException Unit × DB :=
  match db.call_sessions.find?
      (fun c => c.id == call_session_id && c.patientId == patientId) with
  | none => (.error ⟨404, "Call session not found"⟩, db)
  | some session =>
    (.ok (),
      { db with
          call_sessions :=
            updateFirst (fun c => c.id == call_session_id)
              (fun c => { c with status := CallSessionStatus.ENDED, endedAt := some now })
              db.call_sessions,
          queue_entries :=
            updateFirst (fun x => x.scheduleId == session.scheduleId &&
                x.patientId == patientId)
              (fun x => { x with status := QueueStatus.DONE }) db.queue_entries })

/-- POST /call-sessions/{id}/activate: either party, only from CONFIRMED. -/
def activate_call (db : DB) (call_session_id userId : String) :
    Except HTTPException Unit × DB :=
  match db.call_sessions.find? (fun c => c.id == call_session_id) with
  | none => (.error ⟨404, "Call session not found"⟩, db)
  | some session =>
    if session.doctorId == userId || session.patientId == userId then
      if session.status == CallSessionStatus.CONFIRMED then
        (.ok (),
          { db with
              call_sessions :=
                updateFirst (fun c => c.id == call_session_id)
                  (fun c => { c with status := CallSessionStatus.ACTIVE })
                  db.call_sessions })
      else
        (.error ⟨400, "Cannot activate call in status: " ++ session.status.toString⟩, db)
    else
      (.error ⟨403, "Not authorized"⟩, db)

/-- POST /doctor/call-sessions/{id}/set-peer-id. -/
def set_doctor_peer_id (db : DB) (call_session_id doctorId peerId : String) :
    Except HTTPException Unit × DB :=
  match db.call_sessions.find?
      (fun c => c.id == call_session_id && c.doctorId == doctorId) with
  | none => (.error ⟨404, "Call session not found"⟩, db)
  | some _ =>
    (.ok (),
      { db with
          call_sessions :=
            updateFirst (fun c => c.id == call_session_id)
              (fun c => { c with doctorPeerId := some peerId }) db.call_sessions })

/-- POST /patient/call-sessions/{id}/set-peer-id. -/
def set_patient_peer_id (db : DB) (call_session_id patientId peerId : String) :
    Except HTTPException Unit × DB :=
  match db.call_sessions.find?
      (fun c => c.id == call_session_id && c.patientId == patientId) with
  | none => (.error ⟨404, "Call session not found"⟩, db)
  | some _ =>
    (.ok (),
      { db with
          call_sessions :=
            updateFirst (fun c => c.id == call_session_id)
              (fun c => { c with patientPeerId := some peerId }) db.call_sessions })

/-- One coordinator operation together with its request parameters, the
actor's id, the wall-clock time and the fresh uuid where the handler
consumes them. -/
inductive Op
  | startPractice (schedule_id doctorId : String)
  | endPractice (schedule_id doctorId : String) (now : Nat)
  | startCall (schedule_id doctorId patientId : String) (now : Nat) (newId : String)
  | joinQueue (schedule_id patientId : String) (now : Nat) (newId : String)
  | toggleReady (schedule_id patientId : String) (isReady : Bool)
  | confirmCall (call_session_id patientId : String) (now : Nat)
  | declineCall (call_session_id patientId : String) (now : Nat)
  | endCallDoctor (call_session_id doctorId : String) (now : Nat)
  | endCallPatient (call_session_id patientId : String) (now : Nat)
  | activateCall (call_session_id userId : String)
  | setDoctorPeerId (call_session_id doctorId peerId : String)
  | setPatientPeerId (call_session_id patientId peerId : String)
  deriving DecidableEq, Repr

/-- Forget a handler's payload, keeping its error/success and the store. -/
def dropResult {α : Type} (r : Except HTTPException α × DB) :
    Except HTTPException Unit × DB :=
  (r.1.map (fun _ => ()), r.2)

/-- Dispatch an operation to its handler. -/
def applyOp (db : DB) : Op → Except HTTPException Unit × DB
  | .startPractice sid did => start_practice db sid did
  | .endPractice sid did now => end_practice db sid did now
  | .startCall sid did pid now nid => dropResult (start_call db sid did pid now nid)
  | .joinQueue sid pid now nid => dropResult (join_queue db sid pid now nid)
  | .toggleReady sid pid b => toggle_ready db sid pid b
  | .confirmCall cid pid now => confirm_call db cid pid now
  | .declineCall cid pid now => decline_call db cid pid now
  | .endCallDoctor cid did now => end_call_doctor db cid did now
  | .endCallPatient cid pid now => end_call_patient db cid pid now
  | .activateCall cid uid => activate_call db cid uid
  | .setDoctorPeerId cid did p => set_doctor_peer_id db cid did p
  | .setPatientPeerId cid pid p => set_patient_peer_id db cid pid p

/-- Number of call sessions of the schedule whose status is in the active
set. -/
def countActive (db : DB) (schedule_id : String) : Nat :=
  (db.call_sessions.filter (activePred schedule_id)).length

/-- The single-active-call invariant of the spec: at most one active-set
session per schedule. -/
def singleActiveCall (db : DB) : Prop :=
  ∀ sid, countActive db sid ≤ 1

/-- Call-session ids are pairwise distinct (uuid freshness). -/
def uniqueIds (db : DB) : Prop :=
  db.call_sessions.Pairwise (fun a b => a.id ≠ b.id)

/-- The spec's full biconditional isReady = (status == READY), over the
whole store, as a decidable check. -/
def readyConsistentAll (db : DB) : Bool :=
  db.queue_entries.all (fun q => q.isReady == (q.status == QueueStatus.READY))

/-- The one-directional flag discipline the code actually maintains:
WAITING entries are not ready, READY entries are ready. -/
def entryReadyFlagOk (q : QueueEntry) : Bool :=
  match q.status with
  | .WAITING => !q.isReady
  | .READY => q.isReady
  | _ => true

/-- `entryReadyFlagOk` holds of every queue entry in the store. -/
def readyFlagInv (db : DB) : Prop :=
  ∀ q ∈ db.queue_entries, entryReadyFlagOk q = true

/-! General lemmas about the store-update combinators. -/

/-- updateFirst rewrites exactly the element find? locates: the list
splits around it. -/
theorem updateFirst_decomp {α : Type} (q : α → Bool) (g : α → α) :
    ∀ (l : List α) (e : α), l.find? q = some e →
      ∃ l1 l2, l = l1 ++ e :: l2 ∧ updateFirst q g l = l1 ++ g e :: l2 := by
  intro l
  induction l with
  | nil => intro e h; simp at h
  | cons x xs ih =>
    intro e h
    by_cases hx : q x = true
    · rw [List.find?_cons_of_pos _ hx] at h
      obtain rfl : x = e := by simpa using h
      exact ⟨[], xs, by simp, by simp [updateFirst, hx]⟩
    · rw [List.find?_cons_of_neg _ hx] at h
      obtain ⟨l1, l2, he, hu⟩ := ih e h
      exact ⟨x :: l1, l2, by simp [he], by simp [updateFirst, hx, hu]⟩

/-- When the rewritten element still matches the filter, find? after
updateFirst returns exactly the rewritten element. -/
theorem find?_updateFirst_same {α : Type} (p : α → Bool) (g : α → α) :
    ∀ (l : List α) (x : α), l.find? p = some x → p (g x) = true →
      (updateFirst p g l).find? p = some (g x) := by
  intro l
  induction l with
  | nil => intro x h _; simp at h
  | cons a as ih =>
    intro x h hg
    by_cases ha : p a = true
    · rw [List.find?_cons_of_pos _ ha] at h
      obtain rfl : a = x := by simpa using h
      simp only [updateFirst, if_pos ha]
      exact List.find?_cons_of_pos _ hg
    · rw [List.find?_cons_of_neg _ ha] at h
      simp only [updateFirst, if_neg ha]
      rw [List.find?_cons_of_neg _ ha]
      exact ih x h hg

/-- Mapping a function that never turns a non-matching element into a
matching one cannot increase the number of matches. -/
theorem length_filter_map_le {α : Type} (p : α → Bool) (t : α → α)
    (h : ∀ c, p (t c) = true → p c = true) :
    ∀ l : List α, ((l.map t).filter p).length ≤ (l.filter p).length := by
  intro l
  induction l with
  | nil => simp
  | cons x xs ih =>
    simp only [List.map_cons, List.filter_cons]
    by_cases hx : p (t x) = true
    · rw [if_pos hx, if_pos (h x hx)]
      simpa using ih
    · rw [if_neg hx]
      by_cases hpx : p x = true
      · rw [if_pos hpx]
        exact le_trans ih (by simp)
      · rw [if_neg hpx]
        exact ih

/-- The same monotonicity for a first-match rewrite. -/
theorem length_filter_updateFirst_le {α : Type} (p q : α → Bool) (g : α → α)
    (h : ∀ c, p (g c) = true → p c = true) :
    ∀ l : List α, ((updateFirst q g l).filter p).length ≤ (l.filter p).length := by
  intro l
  induction l with
  | nil => simp [updateFirst]
  | cons x xs ih =>
    simp only [updateFirst]
    by_cases hq : q x = true
    · rw [if_pos hq]
      simp only [List.filter_cons]
      by_cases hgx : p (g x) = true
      · rw [if_pos hgx, if_pos (h x hgx)]
        simp
      · rw [if_neg hgx]
        by_cases hpx : p x = true
        · rw [if_pos hpx]
          simp
        · rw [if_neg hpx]
    · rw [if_neg hq]
      simp only [List.filter_cons]
      by_cases hpx : p x = true
      · rw [if_pos hpx, if_pos hpx]
        simpa using ih
      · rw [if_neg hpx, if_neg hpx]
        exact ih

/-- A failed find? means the filter is empty. -/
theorem filter_eq_nil_of_find?_eq_none {α : Type} (p : α → Bool) (l : List α)
    (h : l.find? p = none) : l.filter p = [] := by
  rw [List.filter_eq_nil_iff]
  intro a ha
  exact List.find?_eq_none.mp h a ha

/-- Appending one element adds its own match bit to the filter length. -/
theorem length_filter_append_single {α : Type} (p : α → Bool) (l : List α) (a : α) :
    ((l ++ [a]).filter p).length =
      (l.filter p).length + (if p a = true then 1 else 0) := by
  rw [List.filter_append]
  by_cases h : p a = true <;> simp [List.filter_cons, h]

/-- Replacing one element by one with the same match bit keeps the filter
length. -/
theorem length_filter_middle_eq {α : Type} (p : α → Bool) (l1 l2 : List α) (a b : α)
    (hab : p a = p b) :
    ((l1 ++ a :: l2).filter p).length = ((l1 ++ b :: l2).filter p).length := by
  by_cases h : p b = true
  · simp [List.filter_append, List.filter_cons, hab, h]
  · simp [List.filter_append, List.filter_cons, hab, h]

/-- With pairwise-distinct keys, find? by key locates any given member. -/
theorem find?_eq_of_pairwise_ne {α : Type} (key : α → String) (k : String) :
    ∀ l : List α, l.Pairwise (fun a b => key a ≠ key b) →
      ∀ s ∈ l, key s = k → l.find? (fun c => key c == k) = some s := by
  intro l
  induction l with
  | nil => intro _ s hs; simp at hs
  | cons x xs ih =>
    intro hp s hs hk
    rcases List.mem_cons.mp hs with rfl | hmem
    · exact List.find?_cons_of_pos _ (by simp [hk])
    · have hx : key x ≠ key s := (List.pairwise_cons.mp hp).1 s hmem
      rw [List.find?_cons_of_neg]
      · exact ih (List.pairwise_cons.mp hp).2 s hmem hk
      · simp only [beq_iff_eq]
        intro hxk
        exact hx (by rw [hxk, hk])

/-- A pointwise property survives a first-match rewrite when the rewrite
itself produces elements with the property. -/
theorem all_updateFirst {α : Type} (P : α → Prop) (q : α → Bool) (g : α → α) :
    ∀ l : List α, (∀ x ∈ l, P x) → (∀ x ∈ l, P (g x)) →
      ∀ x ∈ updateFirst q g l, P x := by
  intro l
  induction l with
  | nil => intro _ _ x hx; simp [updateFirst] at hx
  | cons a as ih =>
    intro h hg x hx
    simp only [updateFirst] at hx
    by_cases hq : q a = true
    · rw [if_pos hq] at hx
      rcases List.mem_cons.mp hx with rfl | hmem
      · exact hg a (List.mem_cons_self a as)
      · exact h x (List.mem_cons_of_mem a hmem)
    · rw [if_neg hq] at hx
      rcases List.mem_cons.mp hx with rfl | hmem
      · exact h x (List.mem_cons_self x as)
      · exact ih (fun y hy => h y (List.mem_cons_of_mem a hy))
          (fun y hy => hg y (List.mem_cons_of_mem a hy)) x hmem

/-! Lemmas about the active-call count. -/

/-- countActive only reads call_sessions. -/
theorem countActive_eq_of_call_sessions_eq (db1 db2 : DB)
    (h : db1.call_sessions = db2.call_sessions) (sid : String) :
    countActive db1 sid = countActive db2 sid := by
  simp [countActive, h]

/-- The stale sweep never increases the active count of any schedule. -/
theorem countActive_sweep_le (db : DB) (schedule_id : String) (now : Nat) (sid : String) :
    countActive (sweepExpired db schedule_id now) sid ≤ countActive db sid := by
  simp only [countActive, sweepExpired, updateMany]
  apply length_filter_map_le
  intro c hc
  by_cases hq : (c.scheduleId == schedule_id && c.status == CallSessionStatus.INVITED &&
      decide (c.createdAt < now - 60)) = true
  · rw [if_pos hq] at hc
    simp [activePred, isActiveStatus] at hc
  · rwa [if_neg hq] at hc

/-- A passing active-call check means the schedule has no active session. -/
theorem countActive_zero_of_check_none (db : DB) (sid : String)
    (h : activeCallCheck db sid = none) : countActive db sid = 0 := by
  simp only [activeCallCheck] at h
  simp only [countActive]
  rw [filter_eq_nil_of_find?_eq_none _ _ h]
  rfl

/-- Inserting a session adds its own active bit for the schedule. -/
theorem countActive_insert (db : DB) (c : CallSession) (sid : String) :
    countActive (insertCallSession db c) sid =
      countActive db sid + (if activePred sid c = true then 1 else 0) := by
  simp only [countActive, insertCallSession]
  exact length_filter_append_single _ _ _

/-- Rewriting the first match with a transformation that never activates an
inactive session cannot increase the active count. -/
theorem countActive_updateFirst_le (db : DB) (q : CallSession → Bool)
    (g : CallSession → CallSession)
    (h : ∀ c, activePred sid (g c) = true → activePred sid c = true) :
    (updateFirst q g db.call_sessions |>.filter (activePred sid)).length ≤
      countActive db sid := by
  simp only [countActive]
  exact length_filter_updateFirst_le _ _ _ h _

/-! Concrete records used by counterexamples and witnesses. -/

/-- An ONLINE schedule owned by doctor d1. -/
def exSchedule : Schedule := { id := "s1", doctorId := "d1", status := .ONLINE }

/-- A DECLINED (terminal) call session between d1 and p1 on s1. -/
def exDeclined : CallSession :=
  { id := "c9", scheduleId := "s1", doctorId := "d1", patientId := "p1",
    status := .DECLINED, createdAt := 0, confirmedAt := none, endedAt := some 5,
    doctorPeerId := none, patientPeerId := none }

/-- An INVITED call session between d1 and p1 on s1, created at time 0. -/
def exInvited : CallSession :=
  { id := "c1", scheduleId := "s1", doctorId := "d1", patientId := "p1",
    status := .INVITED, createdAt := 0, confirmedAt := none, endedAt := none,
    doctorPeerId := none, patientPeerId := none }

/-- Queue entry of p1 on s1, WAITING and not ready. -/
def exEntryWaiting : QueueEntry :=
  { id := "q1", scheduleId := "s1", patientId := "p1", queueNumber := 1,
    status := .WAITING, isReady := false, joinedAt := 0 }

/-- Queue entry of p1 on s1, READY. -/
def exEntryReady : QueueEntry :=
  { id := "q1", scheduleId := "s1", patientId := "p1", queueNumber := 1,
    status := .READY, isReady := true, joinedAt := 0 }

/-- Store with a WAITING p1 and the DECLINED session. -/
def exDB5 : DB :=
  { schedules := [exSchedule], queue_entries := [exEntryWaiting],
    call_sessions := [exDeclined] }

/-- Store with a READY p1 and the INVITED session. -/
def exDB6 : DB :=
  { schedules := [exSchedule], queue_entries := [exEntryReady],
    call_sessions := [exInvited] }

/-! Claim C5: which statuses permit End. -/

/-- C5: counterexample. The claim says End on a terminal session is not
permitted and leaves it unchanged; the handler has no status check, so
ending the DECLINED session c9 succeeds, overwrites its status to ENDED,
and cascades the queue entry to DONE. -/
theorem end_call_terminal_not_rejected :
    exDeclined.status = CallSessionStatus.DECLINED ∧
    (end_call_doctor exDB5 "c9" "d1" 50).1 = .ok () ∧
    (end_call_doctor exDB5 "c9" "d1" 50).2.call_sessions.map (fun c => c.status) =
      [CallSessionStatus.ENDED] ∧
    (end_call_doctor exDB5 "c9" "d1" 50).2.queue_entries.map (fun q => q.status) =
      [QueueStatus.DONE] := by
  exact ⟨rfl, rfl, rfl, rfl⟩

/-- C5 (amended): neither End handler has a status precondition. For any
call session the acting party owns — whatever its status, terminal
included — End by the doctor and End by the patient each succeed, set
ENDED with endedAt, and cascade the patient's queue entry to DONE. -/
theorem end_call_unconditional (db : DB) (cid did pid : String) (now : Nat)
    (s : CallSession) :
    (db.call_sessions.find? (fun c => c.id == cid && c.doctorId == did) = some s →
      end_call_doctor db cid did now =
        (.ok (),
          { db with
              call_sessions :=
                updateFirst (fun c => c.id == cid)
                  (fun c => { c with status := CallSessionStatus.ENDED, endedAt := some now })
                  db.call_sessions,
              queue_entries :=
                updateFirst (fun x => x.scheduleId == s.scheduleId && x.patientId == s.patientId)
                  (fun x => { x with status := QueueStatus.DONE }) db.queue_entries })) ∧
    (db.call_sessions.find? (fun c => c.id == cid && c.patientId == pid) = some s →
      end_call_patient db cid pid now =
        (.ok (),
          { db with
              call_sessions :=
                updateFirst (fun c => c.id == cid)
                  (fun c => { c with status := CallSessionStatus.ENDED, endedAt := some now })
                  db.call_sessions,
              queue_entries :=
                updateFirst (fun x => x.scheduleId == s.scheduleId && x.patientId == pid)
                  (fun x => { x with status := QueueStatus.DONE }) db.queue_entries })) := by
  constructor
  · intro hfind
    simp only [end_call_doctor, hfind]
  · intro hfind
    simp only [end_call_patient, hfind]

/-- C5: witness — the theorem applied to the DECLINED session of exDB5,
once through the doctor route and once through the patient route. -/
theorem end_call_unconditional_witness :
    (end_call_doctor exDB5 "c9" "d1" 50).1 = Except.ok () ∧
    (end_call_patient exDB5 "c9" "p1" 50).1 = Except.ok () := by
  constructor
  · rw [(end_call_unconditional exDB5 "c9" "d1" "p1" 50 exDeclined).1 rfl]
  · rw [(end_call_unconditional exDB5 "c9" "d1" "p1" 50 exDeclined).2 rfl]

/-! Claim C6: Confirm is valid exactly from INVITED. -/

/-- C6: Confirm succeeds exactly when the found session is INVITED: on
success it sets CONFIRMED with confirmedAt and cascades the queue entry to
IN_CALL; from any other status it fails with the 400 error whose detail
names the offending current status, and the store is returned unchanged. -/
theorem confirm_iff_invited (db : DB) (cid pid : String) (now : Nat) (s : CallSession)
    (hfind : db.call_sessions.find? (fun c => c.id == cid && c.patientId == pid) = some s) :
    (s.status = CallSessionStatus.INVITED →
      confirm_call db cid pid now =
        (.ok (),
          { db with
              call_sessions :=
                updateFirst (fun c => c.id == cid)
                  (fun c => { c with status := CallSessionStatus.CONFIRMED, confirmedAt := some now })
                  db.call_sessions,
              queue_entries :=
                updateFirst (fun x => x.scheduleId == s.scheduleId && x.patientId == pid)
                  (fun x => { x with status := QueueStatus.IN_CALL }) db.queue_entries })) ∧
    (s.status ≠ CallSessionStatus.INVITED →
      confirm_call db cid pid now =
        (.error ⟨400, "Cannot confirm call in status: " ++ s.status.toString⟩, db)) := by
  constructor
  · intro h
    simp only [confirm_call, hfind, h]
    rfl
  · intro h
    simp only [confirm_call, hfind]
    rw [if_neg (by simpa using h)]

/-- C6: witness — confirming the INVITED session of exDB6 succeeds, and
confirming the DECLINED session of exDB5 is rejected with the status named
in the error detail. -/
theorem confirm_iff_invited_witness :
    (confirm_call exDB6 "c1" "p1" 7).1 = Except.ok () ∧
    confirm_call exDB5 "c9" "p1" 7 =
      (.error ⟨400, "Cannot confirm call in status: DECLINED"⟩, exDB5) := by
  constructor
  · rw [(confirm_iff_invited exDB6 "c1" "p1" 7 exInvited rfl).1 rfl]
  · exact (confirm_iff_invited exDB5 "c9" "p1" 7 exDeclined rfl).2 (by decide)

/-! Claim C10: Confirm performs no staleness check. -/

/-- C10: an INVITED session arbitrarily older than the 60-second expiry
threshold is still confirmable — confirm_call checks only the status, so
it succeeds and sets CONFIRMED no matter how far createdAt lies in the
past; the expiry is applied only by a later start_call on the schedule. -/
theorem confirm_ignores_staleness (db : DB) (cid pid : String) (now : Nat) (s : CallSession)
    (hfind : db.call_sessions.find? (fun c => c.id == cid && c.patientId == pid) = some s)
    (hst : s.status = CallSessionStatus.INVITED)
    (hstale : s.createdAt + 60 < now) :
    (confirm_call db cid pid now).1 = .ok () ∧
    (confirm_call db cid pid now).2.call_sessions =
      updateFirst (fun c => c.id == cid)
        (fun c => { c with status := CallSessionStatus.CONFIRMED, confirmedAt := some now })
        db.call_sessions := by
  simp only [confirm_call, hfind, hst]
  constructor <;> rfl

/-- C10: witness — the session created at time 0 is confirmed at time
1000000, far beyond the 60-second threshold. -/
theorem confirm_ignores_staleness_witness :
    (confirm_call exDB6 "c1" "p1" 1000000).1 = Except.ok () := by
  exact (confirm_ignores_staleness exDB6 "c1" "p1" 1000000 exInvited rfl rfl
    (by decide)).1

/-! Claim C9: SetReady(true) then SetReady(false) round-trips. -/

/-- Effect of one toggle_ready call on a found entry that is neither DONE
nor IN_CALL. -/
theorem toggle_ready_found (db : DB) (sid pid : String) (b : Bool) (q : QueueEntry)
    (hfind : db.queue_entries.find? (fun x => x.scheduleId == sid && x.patientId == pid) = some q)
    (hd : q.status ≠ QueueStatus.DONE) (hi : q.status ≠ QueueStatus.IN_CALL) :
    toggle_ready db sid pid b =
      (.ok (),
        { db with
            queue_entries :=
              updateFirst (fun x => x.scheduleId == sid && x.patientId == pid)
                (fun x =>
                  { x with
                      status := if b then QueueStatus.READY else QueueStatus.WAITING,
                      isReady := b })
                db.queue_entries }) := by
  simp only [toggle_ready, hfind]
  rw [if_neg (by simpa using hd), if_neg (by simpa using hi)]

/-- C9: from a WAITING or READY entry, toggling ready on and then off
succeeds twice and leaves the entry WAITING with isReady false. -/
theorem set_ready_round_trip (db : DB) (sid pid : String) (q : QueueEntry)
    (hfind : db.queue_entries.find? (fun x => x.scheduleId == sid && x.patientId == pid) = some q)
    (hst : q.status = QueueStatus.WAITING ∨ q.status = QueueStatus.READY) :
    (toggle_ready db sid pid true).1 = .ok () ∧
    (toggle_ready (toggle_ready db sid pid true).2 sid pid false).1 = .ok () ∧
    (toggle_ready (toggle_ready db sid pid true).2 sid pid false).2.queue_entries.find?
        (fun x => x.scheduleId == sid && x.patientId == pid) =
      some { q with status := QueueStatus.WAITING, isReady := false } := by
  have hq : (q.scheduleId == sid && q.patientId == pid) = true := by
    have h := List.find?_some hfind
    simpa using h
  have hd : q.status ≠ QueueStatus.DONE := by
    rcases hst with h | h <;> simp [h]
  have hi : q.status ≠ QueueStatus.IN_CALL := by
    rcases hst with h | h <;> simp [h]
  have h1 := toggle_ready_found db sid pid true q hfind hd hi
  have hfind1 : (toggle_ready db sid pid true).2.queue_entries.find?
      (fun x => x.scheduleId == sid && x.patientId == pid) =
      some { q with status := QueueStatus.READY, isReady := true } := by
    rw [h1]
    exact find?_updateFirst_same _ _ _ _ hfind hq
  have h2 := toggle_ready_found (toggle_ready db sid pid true).2 sid pid false
    { q with status := QueueStatus.READY, isReady := true } hfind1 (by simp) (by simp)
  refine ⟨by rw [h1], by rw [h2], ?_⟩
  rw [h2]
  exact find?_updateFirst_same (fun x => x.scheduleId == sid && x.patientId == pid)
    (fun x =>
      { x with
          status := if false then QueueStatus.READY else QueueStatus.WAITING,
          isReady := false })
    (toggle_ready db sid pid true).2.queue_entries
    { q with status := QueueStatus.READY, isReady := true } hfind1 hq

/-- C9: witness — the round trip on the WAITING entry of exDB5. -/
theorem set_ready_round_trip_witness :
    (toggle_ready (toggle_ready exDB5 "s1" "p1" true).2 "s1" "p1" false).2.queue_entries.find?
        (fun x => x.scheduleId == "s1" && x.patientId == "p1") =
      some { id := "q1", scheduleId := "s1", patientId := "p1", queueNumber := 1,
             status := QueueStatus.WAITING, isReady := false, joinedAt := 0 } := by
  exact (set_ready_round_trip exDB5 "s1" "p1"
    { id := "q1", scheduleId := "s1", patientId := "p1", queueNumber := 1,
      status := QueueStatus.WAITING, isReady := false, joinedAt := 0 }
    rfl (Or.inl rfl)).2.2

/-! Claim C4: the stale-invitation sweep runs before the active-call check. -/

/-- When every active-set session of the schedule is a stale INVITED one,
the sweep leaves the schedule with no active session, so the subsequent
active-call check passes. -/
theorem sweep_clears_active (db : DB) (sid : String) (now : Nat)
    (hstale : ∀ c ∈ db.call_sessions, c.scheduleId = sid → isActiveStatus c.status = true →
      c.status = CallSessionStatus.INVITED ∧ c.createdAt + 60 < now) :
    activeCallCheck (sweepExpired db sid now) sid = none := by
  simp only [activeCallCheck, sweepExpired, updateMany]
  rw [List.find?_eq_none]
  intro x hx
  rw [List.mem_map] at hx
  obtain ⟨c, hc, rfl⟩ := hx
  by_cases hq : (c.scheduleId == sid && c.status == CallSessionStatus.INVITED &&
      decide (c.createdAt < now - 60)) = true
  · rw [if_pos hq]
    simp [activePred, isActiveStatus]
  · rw [if_neg hq]
    intro hact
    have hparts : c.scheduleId = sid ∧ isActiveStatus c.status = true := by
      simpa [activePred] using hact
    obtain ⟨hinv, hlt⟩ := hstale c hc hparts.1 hparts.2
    apply hq
    simp only [hinv, hparts.1]
    simp
    omega

/-- C4: on an Invite for an ONLINE schedule whose active-set sessions are
all INVITED and older than 60 seconds, with the patient READY, the stale
sessions are first transitioned to EXPIRED with endedAt set (the sweep),
the active-call check then passes, and the new INVITED session is
created. -/
theorem invite_sweeps_stale_then_succeeds (db : DB) (sid did pid : String) (now : Nat)
    (nid : String) (sch : Schedule) (q : QueueEntry)
    (hsch : db.schedules.find? (fun s => s.id == sid && s.doctorId == did) = some sch)
    (hon : sch.status = ScheduleStatus.ONLINE)
    (hstale : ∀ c ∈ db.call_sessions, c.scheduleId = sid → isActiveStatus c.status = true →
      c.status = CallSessionStatus.INVITED ∧ c.createdAt + 60 < now)
    (hq : db.queue_entries.find? (fun x => x.scheduleId == sid && x.patientId == pid) = some q)
    (hready : q.status = QueueStatus.READY) :
    start_call db sid did pid now nid =
      (.ok nid, insertCallSession (sweepExpired db sid now)
        (newCallSession sid did pid now nid)) ∧
    ∀ c ∈ (sweepExpired db sid now).call_sessions,
      c.scheduleId = sid → isActiveStatus c.status = false := by
  have hnone := sweep_clears_active db sid now hstale
  have hqe : (sweepExpired db sid now).queue_entries = db.queue_entries := rfl
  constructor
  · simp only [start_call, hsch, hon]
    rw [if_pos (by simp)]
    simp only [hnone, hqe, hq, hready]
    rw [if_pos (by simp)]
  · intro c hc hcs
    have hfind : ¬ activePred sid c = true := by
      have h := hnone
      simp only [activeCallCheck] at h
      exact List.find?_eq_none.mp h c hc
    simpa [activePred, hcs] using hfind

/-- C4: witness — the INVITED session of exDB6 created at 0 is swept to
EXPIRED with endedAt 100 by the Invite at time 100, which then creates the
new INVITED session c2. -/
theorem invite_sweeps_stale_then_succeeds_witness :
    (start_call exDB6 "s1" "d1" "p1" 100 "c2").1 = .ok "c2" ∧
    (start_call exDB6 "s1" "d1" "p1" 100 "c2").2.call_sessions.map
        (fun c => (c.id, c.status, c.endedAt)) =
      [("c1", CallSessionStatus.EXPIRED, some 100),
       ("c2", CallSessionStatus.INVITED, none)] := by
  have h := invite_sweeps_stale_then_succeeds exDB6 "s1" "d1" "p1" 100 "c2" exSchedule
    exEntryReady rfl rfl (by decide) rfl rfl
  constructor
  · rw [h.1]
  · rw [h.1]
    rfl

/-! Claim C7: join_queue preconditions and queue-number assignment. -/

/-- Every queue number of the schedule is bounded by the maximum. -/
theorem queueNumber_le_max (sid : String) :
    ∀ l : List QueueEntry, ∀ q ∈ l, q.scheduleId = sid →
      q.queueNumber ≤ maxQueueNumber l sid := by
  intro l
  induction l with
  | nil => intro q hq; simp at hq
  | cons x xs ih =>
    intro q hq hs
    simp only [maxQueueNumber, List.filter_cons]
    rcases List.mem_cons.mp hq with rfl | hmem
    · rw [if_pos (by simp [hs])]
      simp only [List.foldr_cons]
      exact Nat.le_max_left _ _
    · by_cases hx : (x.scheduleId == sid) = true
      · rw [if_pos hx]
        simp only [List.foldr_cons]
        exact le_trans (ih q hmem hs) (Nat.le_max_right _ _)
      · rw [if_neg hx]
        exact ih q hmem hs

/-- C7: Join fails with ScheduleNotFound when the schedule is absent and
with AlreadyQueued when an entry for the pair exists; otherwise it appends
a WAITING entry numbered max existing queueNumber for the schedule plus 1
(1 when the queue is empty), a number strictly above every number already
assigned for the schedule, so admission order is strictly increasing and
numbers are unique. -/
theorem join_queue_assigns_next_number (db : DB) (sid pid : String) (now : Nat)
    (nid : String) :
    (db.schedules.find? (fun s => s.id == sid) = none →
      join_queue db sid pid now nid = (.error ⟨404, "Schedule not found"⟩, db)) ∧
    (∀ sch, db.schedules.find? (fun s => s.id == sid) = some sch →
      ∀ q0, db.queue_entries.find?
          (fun x => x.scheduleId == sid && x.patientId == pid) = some q0 →
      join_queue db sid pid now nid = (.error ⟨400, "Already in queue"⟩, db)) ∧
    (∀ sch, db.schedules.find? (fun s => s.id == sid) = some sch →
      db.queue_entries.find? (fun x => x.scheduleId == sid && x.patientId == pid) = none →
      join_queue db sid pid now nid =
        (.ok (nextQueueNumber db.queue_entries sid),
          { db with
              queue_entries := db.queue_entries ++
                [{ id := nid, scheduleId := sid, patientId := pid,
                   queueNumber := nextQueueNumber db.queue_entries sid,
                   status := QueueStatus.WAITING, isReady := false, joinedAt := now }] }) ∧
      ∀ q ∈ db.queue_entries, q.scheduleId = sid →
        q.queueNumber < nextQueueNumber db.queue_entries sid) := by
  refine ⟨?_, ?_, ?_⟩
  · intro h
    simp only [join_queue, h]
  · intro sch hs q0 hq
    simp only [join_queue, hs, hq]
  · intro sch hs hq
    constructor
    · simp only [join_queue, hs, hq]
    · intro q hmem hqs
      have h := queueNumber_le_max sid db.queue_entries q hmem hqs
      simp only [nextQueueNumber]
      omega

/-- Store with one schedule and one entry (number 1), used for C7. -/
def exDB7 : DB :=
  { schedules := [exSchedule], queue_entries := [exEntryWaiting], call_sessions := [] }

/-- C7: witness — p2 joining exDB7 gets number 2, above p1's number 1. -/
theorem join_queue_assigns_next_number_witness :
    (join_queue exDB7 "s1" "p2" 5 "q2").1 = .ok 2 ∧
    ∀ q ∈ exDB7.queue_entries, q.scheduleId = "s1" → q.queueNumber < 2 := by
  have h := (join_queue_assigns_next_number exDB7 "s1" "p2" 5 "q2").2.2 exSchedule rfl rfl
  have hn : nextQueueNumber exDB7.queue_entries "s1" = 2 := by decide
  constructor
  · have h1 := congrArg Prod.fst h.1
    rw [hn] at h1
    exact h1
  · intro q hq hs
    have h2 := h.2 q hq hs
    rwa [hn] at h2

/-! Claim C8: how Invite reports a missing or unready patient. -/

/-- Store with an ONLINE schedule and nothing else, used for C8. -/
def exDB8 : DB :=
  { schedules := [exSchedule], queue_entries := [], call_sessions := [] }

/-- C8: counterexample. The claim says a patient with no queue entry is
reported as PatientNotReady; the handler instead raises a distinct 404
"Patient not in queue", not the 400 "Patient is not ready". -/
theorem invite_missing_entry_distinct_error :
    (start_call exDB8 "s1" "d1" "p1" 100 "c1").1 =
      .error ⟨404, "Patient not in queue"⟩ ∧
    HTTPException.mk 404 "Patient not in queue" ≠
      HTTPException.mk 400 "Patient is not ready" := by
  exact ⟨rfl, by decide⟩

/-- C8 (amended): past the ONLINE and active-call checks, Invite
distinguishes the two cases — no queue entry for the patient yields the
404 "Patient not in queue" error, while an existing entry whose status is
not READY yields the 400 "Patient is not ready" error; in both cases the
store keeps only the sweep's effect. -/
theorem invite_patient_precondition_errors (db : DB) (sid did pid : String) (now : Nat)
    (nid : String) (sch : Schedule)
    (hsch : db.schedules.find? (fun s => s.id == sid && s.doctorId == did) = some sch)
    (hon : sch.status = ScheduleStatus.ONLINE)
    (hnone : activeCallCheck (sweepExpired db sid now) sid = none) :
    (db.queue_entries.find? (fun x => x.scheduleId == sid && x.patientId == pid) = none →
      start_call db sid did pid now nid =
        (.error ⟨404, "Patient not in queue"⟩, sweepExpired db sid now)) ∧
    (∀ q, db.queue_entries.find?
        (fun x => x.scheduleId == sid && x.patientId == pid) = some q →
      q.status ≠ QueueStatus.READY →
      start_call db sid did pid now nid =
        (.error ⟨400, "Patient is not ready"⟩, sweepExpired db sid now)) := by
  have hqe : (sweepExpired db sid now).queue_entries = db.queue_entries := rfl
  constructor
  · intro h
    simp only [start_call, hsch, hon]
    rw [if_pos (by simp)]
    simp only [hnone, hqe, h]
  · intro q hq hns
    simp only [start_call, hsch, hon]
    rw [if_pos (by simp)]
    simp only [hnone, hqe, hq]
    rw [if_neg (by simpa using hns)]

/-- C8: witness — the theorem applied to the missing-entry store exDB8 and
to exDB5, whose entry is WAITING rather than READY. -/
theorem invite_patient_precondition_errors_witness :
    start_call exDB8 "s1" "d1" "p1" 100 "c1" =
      (.error ⟨404, "Patient not in queue"⟩, sweepExpired exDB8 "s1" 100) ∧
    start_call exDB5 "s1" "d1" "p1" 100 "c1" =
      (.error ⟨400, "Patient is not ready"⟩, sweepExpired exDB5 "s1" 100) := by
  constructor
  · exact (invite_patient_precondition_errors exDB8 "s1" "d1" "p1" 100 "c1" exSchedule
      rfl rfl rfl).1 rfl
  · exact (invite_patient_precondition_errors exDB5 "s1" "d1" "p1" 100 "c1" exSchedule
      rfl rfl rfl).2 exEntryWaiting rfl (by decide)

/-! Claim C3: the isReady / status relationship. -/

/-- C3: counterexample. exDB6 satisfies the claimed biconditional
isReady = (status == READY); the Confirm cascade sets the entry to IN_CALL
without clearing isReady, so the biconditional fails on the resulting
store. -/
theorem confirm_breaks_ready_iff :
    readyConsistentAll exDB6 = true ∧
    (confirm_call exDB6 "c1" "p1" 10).1 = .ok () ∧
    readyConsistentAll (confirm_call exDB6 "c1" "p1" 10).2 = false := by
  exact ⟨rfl, rfl, rfl⟩

/-- C3 (amended): every coordinator operation preserves the one-directional
discipline — a WAITING entry has isReady false and a READY entry has
isReady true. (The full biconditional is not preserved: Confirm's cascade
to IN_CALL and End's cascade to DONE leave isReady set.) -/
theorem ready_flag_invariant_preserved (db : DB) (op : Op)
    (h : readyFlagInv db) : readyFlagInv (applyOp db op).2 := by
  cases op with
  | startPractice sid did =>
    simp only [applyOp, start_practice]
    split
    · exact h
    · split
      · exact h
      · split
        · exact h
        · exact h
  | endPractice sid did now =>
    simp only [applyOp, end_practice]
    split
    · exact h
    · exact h
  | startCall sid did pid now nid =>
    simp only [applyOp, dropResult, start_call]
    split
    · exact h
    · split
      · split
        · exact h
        · split
          · exact h
          · split
            · exact h
            · exact h
      · exact h
  | joinQueue sid pid now nid =>
    simp only [applyOp, dropResult, join_queue]
    split
    · exact h
    · split
      · exact h
      · intro x hx
        rcases List.mem_append.mp hx with hx | hx
        · exact h x hx
        · obtain rfl := List.mem_singleton.mp hx
          rfl
  | toggleReady sid pid b =>
    simp only [applyOp, toggle_ready]
    split
    · exact h
    · split
      · exact h
      · split
        · exact h
        · intro x hx
          refine all_updateFirst _ _ _ db.queue_entries h ?_ x hx
          intro y hy
          cases b <;> rfl
  | confirmCall cid pid now =>
    simp only [applyOp, confirm_call]
    split
    · exact h
    · split
      · intro x hx
        refine all_updateFirst _ _ _ db.queue_entries h ?_ x hx
        intro y hy
        rfl
      · exact h
  | declineCall cid pid now =>
    simp only [applyOp, decline_call]
    split
    · exact h
    · split
      · intro x hx
        refine all_updateFirst _ _ _ db.queue_entries h ?_ x hx
        intro y hy
        rfl
      · exact h
  | endCallDoctor cid did now =>
    simp only [applyOp, end_call_doctor]
    split
    · exact h
    · intro x hx
      refine all_updateFirst _ _ _ db.queue_entries h ?_ x hx
      intro y hy
      rfl
  | endCallPatient cid pid now =>
    simp only [applyOp, end_call_patient]
    split
    · exact h
    · intro x hx
      refine all_updateFirst _ _ _ db.queue_entries h ?_ x hx
      intro y hy
      rfl
  | activateCall cid uid =>
    simp only [applyOp, activate_call]
    split
    · exact h
    · split
      · split
        · exact h
        · exact h
      · exact h
  | setDoctorPeerId cid did pd =>
    simp only [applyOp, set_doctor_peer_id]
    split
    · exact h
    · exact h
  | setPatientPeerId cid pid pd =>
    simp only [applyOp, set_patient_peer_id]
    split
    · exact h
    · exact h

/-- C3: witness — the one-directional discipline holds on exDB6 and is
preserved by the Confirm that breaks the full biconditional. -/
theorem ready_flag_invariant_preserved_witness :
    readyFlagInv exDB6 ∧
    readyFlagInv (applyOp exDB6 (Op.confirmCall "c1" "p1" 10)).2 := by
  have h0 : readyFlagInv exDB6 := by
    unfold readyFlagInv
    decide
  exact ⟨h0, ready_flag_invariant_preserved exDB6 (Op.confirmCall "c1" "p1" 10) h0⟩

/-! Claim C2: what a failed operation may mutate. -/

/-- Store with an ONLINE schedule, an empty queue and a stale INVITED
session, used for C2. -/
def exDB2 : DB :=
  { schedules := [exSchedule], queue_entries := [], call_sessions := [exInvited] }

/-- C2: counterexample. The Invite at time 100 fails (the patient has no
queue entry), yet the store is mutated: the expiry sweep, which runs
before the failing check, has already transitioned the stale INVITED
session to EXPIRED. -/
theorem failed_invite_store_mutation :
    (start_call exDB2 "s1" "d1" "p1" 100 "c2").1 =
      .error ⟨404, "Patient not in queue"⟩ ∧
    (start_call exDB2 "s1" "d1" "p1" 100 "c2").2 ≠ exDB2 ∧
    (start_call exDB2 "s1" "d1" "p1" 100 "c2").2.call_sessions.map (fun c => c.status) =
      [CallSessionStatus.EXPIRED] := by
  refine ⟨rfl, ?_, rfl⟩
  decide

/-- C2 (amended): a coordinator operation that fails leaves the store
unchanged, except a failed Invite, whose result keeps exactly the effect
of the stale-invitation sweep (the sweep precedes the active-call and
readiness checks) and nothing else. -/
theorem failed_op_mutates_at_most_sweep (db : DB) (op : Op) (e : HTTPException)
    (h : (applyOp db op).1 = .error e) :
    (applyOp db op).2 = db ∨
    ∃ sid did pid now nid, op = Op.startCall sid did pid now nid ∧
      (applyOp db op).2 = sweepExpired db sid now := by
  cases op with
  | startPractice sid did =>
    left
    rcases hf : db.schedules.find? (fun s => s.id == sid && s.doctorId == did) with _ | sch
    · simp [applyOp, start_practice, hf]
    · by_cases h1 : sch.status = ScheduleStatus.ONLINE
      · simp [applyOp, start_practice, hf, h1]
      · by_cases h2 : sch.status = ScheduleStatus.COMPLETED
        · simp [applyOp, start_practice, hf, h1, h2]
        · simp [applyOp, start_practice, hf, h1, h2] at h
  | endPractice sid did now =>
    left
    rcases hf : db.schedules.find? (fun s => s.id == sid && s.doctorId == did) with _ | sch
    · simp [applyOp, end_practice, hf]
    · simp [applyOp, end_practice, hf] at h
  | startCall sid did pid now nid =>
    rcases hf : db.schedules.find? (fun s => s.id == sid && s.doctorId == did) with _ | sch
    · left
      simp [applyOp, dropResult, start_call, hf]
    · by_cases h1 : sch.status = ScheduleStatus.ONLINE
      · rcases hac : activeCallCheck (sweepExpired db sid now) sid with _ | c
        · rcases hq : (sweepExpired db sid now).queue_entries.find?
              (fun x => x.scheduleId == sid && x.patientId == pid) with _ | q
          · right
            exact ⟨sid, did, pid, now, nid, rfl,
              by simp [applyOp, dropResult, start_call, hf, h1, hac, hq]⟩
          · by_cases hr : q.status = QueueStatus.READY
            · simp [applyOp, dropResult, start_call, Except.map, hf, h1, hac, hq, hr] at h
            · right
              exact ⟨sid, did, pid, now, nid, rfl,
                by simp [applyOp, dropResult, start_call, hf, h1, hac, hq, hr]⟩
        · right
          exact ⟨sid, did, pid, now, nid, rfl,
            by simp [applyOp, dropResult, start_call, hf, h1, hac]⟩
      · left
        simp [applyOp, dropResult, start_call, hf, h1]
  | joinQueue sid pid now nid =>
    left
    rcases hf : db.schedules.find? (fun s => s.id == sid) with _ | sch
    · simp [applyOp, dropResult, join_queue, hf]
    · rcases hq : db.queue_entries.find?
          (fun x => x.scheduleId == sid && x.patientId == pid) with _ | q
      · simp [applyOp, dropResult, join_queue, Except.map, hf, hq] at h
      · simp [applyOp, dropResult, join_queue, hf, hq]
  | toggleReady sid pid b =>
    left
    rcases hf : db.queue_entries.find?
        (fun x => x.scheduleId == sid && x.patientId == pid) with _ | q
    · simp [applyOp, toggle_ready, hf]
    · by_cases h1 : q.status = QueueStatus.DONE
      · simp [applyOp, toggle_ready, hf, h1]
      · by_cases h2 : q.status = QueueStatus.IN_CALL
        · simp [applyOp, toggle_ready, hf, h1, h2]
        · simp [applyOp, toggle_ready, hf, h1, h2] at h
  | confirmCall cid pid now =>
    left
    rcases hf : db.call_sessions.find?
        (fun c => c.id == cid && c.patientId == pid) with _ | s0
    · simp [applyOp, confirm_call, hf]
    · by_cases h1 : s0.status = CallSessionStatus.INVITED
      · simp [applyOp, confirm_call, hf, h1] at h
      · simp [applyOp, confirm_call, hf, h1]
  | declineCall cid pid now =>
    left
    rcases hf : db.call_sessions.find?
        (fun c => c.id == cid && c.patientId == pid) with _ | s0
    · simp [applyOp, decline_call, hf]
    · by_cases h1 : s0.status = CallSessionStatus.INVITED
      · simp [applyOp, decline_call, hf, h1] at h
      · simp [applyOp, decline_call, hf, h1]
  | endCallDoctor cid did now =>
    left
    rcases hf : db.call_sessions.find?
        (fun c => c.id == cid && c.doctorId == did) with _ | s0
    · simp [applyOp, end_call_doctor, hf]
    · simp [applyOp, end_call_doctor, hf] at h
  | endCallPatient cid pid now =>
    left
    rcases hf : db.call_sessions.find?
        (fun c => c.id == cid && c.patientId == pid) with _ | s0
    · simp [applyOp, end_call_patient, hf]
    · simp [applyOp, end_call_patient, hf] at h
  | activateCall cid uid =>
    left
    rcases hf : db.call_sessions.find? (fun c => c.id == cid) with _ | s0
    · simp [applyOp, activate_call, hf]
    · by_cases h1 : (s0.doctorId == uid || s0.patientId == uid) = true
      · by_cases h2 : s0.status = CallSessionStatus.CONFIRMED
        · simp [applyOp, activate_call, hf, h1, h2] at h
        · simp [applyOp, activate_call, hf, h1, h2]
      · simp [applyOp, activate_call, hf, h1]
  | setDoctorPeerId cid did pd =>
    left
    rcases hf : db.call_sessions.find?
        (fun c => c.id == cid && c.doctorId == did) with _ | s0
    · simp [applyOp, set_doctor_peer_id, hf]
    · simp [applyOp, set_doctor_peer_id, hf] at h
  | setPatientPeerId cid pid pd =>
    left
    rcases hf : db.call_sessions.find?
        (fun c => c.id == cid && c.patientId == pid) with _ | s0
    · simp [applyOp, set_patient_peer_id, hf]
    · simp [applyOp, set_patient_peer_id, hf] at h

/-- C2: witness — a failed SetReady (patient not queued) leaves the store
unchanged. -/
theorem failed_op_mutates_at_most_sweep_witness :
    (applyOp exDB8 (Op.toggleReady "s1" "p1" true)).1 =
      .error ⟨404, "Not in queue"⟩ ∧
    ((applyOp exDB8 (Op.toggleReady "s1" "p1" true)).2 = exDB8 ∨
      ∃ sid did pid now nid,
        Op.toggleReady "s1" "p1" true = Op.startCall sid did pid now nid ∧
        (applyOp exDB8 (Op.toggleReady "s1" "p1" true)).2 = sweepExpired exDB8 sid now) := by
  exact ⟨rfl, failed_op_mutates_at_most_sweep exDB8 _ _ rfl⟩

/-! Claim C1: the single-active-call invariant. -/

/-- Second READY patient p2 on s1. -/
def exEntryReady2 : QueueEntry :=
  { id := "q2", scheduleId := "s1", patientId := "p2", queueNumber := 2,
    status := .READY, isReady := true, joinedAt := 0 }

/-- Store with two READY patients and no call sessions, used for C1. -/
def exDB1 : DB :=
  { schedules := [exSchedule], queue_entries := [exEntryReady, exEntryReady2],
    call_sessions := [] }

/-- State after both concurrent Invite requests have run their sweeps and
active-call checks (both pass, in program order sweep A, check A, sweep B,
check B) and request A has then inserted its session. -/
def exAfterA : DB :=
  insertCallSession (sweepExpired (sweepExpired exDB1 "s1" 100) "s1" 100)
    (newCallSession "s1" "d1" "p1" 100 "cA")

/-- State after request B, whose check already passed before A's insert,
has also inserted its session. -/
def exAfterAB : DB :=
  insertCallSession exAfterA (newCallSession "s1" "d1" "p2" 100 "cB")

/-- C1: counterexample. The handler's sweep, active-call check, readiness
check and insert are separate awaited store operations, so two concurrent
Invite calls may interleave as sweep A; check A; sweep B; check B;
readiness check A; insert A; readiness check B; insert B. Starting from a
store satisfying the invariant both checks pass — B's check still sees no
active session because A has not yet inserted — both patients are READY at
their readiness checks, and after both inserts the schedule holds two
active-set sessions, violating size ≤ 1. -/
theorem concurrent_invites_counterexample :
    singleActiveCall exDB1 ∧
    activeCallCheck (sweepExpired exDB1 "s1" 100) "s1" = none ∧
    activeCallCheck (sweepExpired (sweepExpired exDB1 "s1" 100) "s1" 100) "s1" = none ∧
    (sweepExpired (sweepExpired exDB1 "s1" 100) "s1" 100).queue_entries.find?
        (fun x => x.scheduleId == "s1" && x.patientId == "p1") = some exEntryReady ∧
    exAfterA.queue_entries.find?
        (fun x => x.scheduleId == "s1" && x.patientId == "p2") = some exEntryReady2 ∧
    countActive exAfterAB "s1" = 2 ∧
    ¬ singleActiveCall exAfterAB := by
  refine ⟨?_, rfl, rfl, rfl, rfl, rfl, ?_⟩
  · intro sid
    exact Nat.zero_le 1
  · intro hinv
    have h1 := hinv "s1"
    have h2 : countActive exAfterAB "s1" = 2 := rfl
    omega

/-- C1 (amended): with pairwise-distinct session ids (as uuid generation
guarantees), every coordinator operation executed atomically preserves the
single-active-call invariant. The guarantee does not extend to Invite
calls whose store operations interleave: the check-then-insert race can
create two simultaneously active sessions. -/
theorem single_active_call_preserved (db : DB) (op : Op)
    (huniq : uniqueIds db) (hinv : singleActiveCall db) :
    singleActiveCall (applyOp db op).2 := by
  intro sid
  cases op with
  | startPractice qsid qdid =>
    simp only [applyOp, start_practice]
    split
    · exact hinv sid
    · split
      · exact hinv sid
      · split
        · exact hinv sid
        · exact hinv sid
  | endPractice qsid qdid qnow =>
    rcases hf : db.schedules.find? (fun s => s.id == qsid && s.doctorId == qdid) with _ | sch
    · simp only [applyOp, end_practice, hf]
      exact hinv sid
    · simp only [applyOp, end_practice, hf]
      show ((updateMany (activePred qsid)
          (fun c => { c with status := CallSessionStatus.ENDED, endedAt := some qnow })
          db.call_sessions).filter (activePred sid)).length ≤ 1
      simp only [updateMany]
      refine le_trans (length_filter_map_le _ _ ?_ db.call_sessions) (hinv sid)
      intro c hc
      by_cases hq : activePred qsid c = true
      · rw [if_pos hq] at hc
        simp [activePred, isActiveStatus] at hc
      · rwa [if_neg hq] at hc
  | startCall qsid qdid qpid qnow qnid =>
    rcases hf : db.schedules.find? (fun s => s.id == qsid && s.doctorId == qdid) with _ | sch
    · simp only [applyOp, dropResult, start_call, hf]
      exact hinv sid
    · by_cases h1 : sch.status = ScheduleStatus.ONLINE
      · rcases hac : activeCallCheck (sweepExpired db qsid qnow) qsid with _ | c0
        · rcases hq : (sweepExpired db qsid qnow).queue_entries.find?
              (fun x => x.scheduleId == qsid && x.patientId == qpid) with _ | q
          · simp only [applyOp, dropResult, start_call, hf]
            rw [if_pos (by simp [h1])]
            simp only [hac, hq]
            exact le_trans (countActive_sweep_le db qsid qnow sid) (hinv sid)
          · by_cases hr : q.status = QueueStatus.READY
            · simp only [applyOp, dropResult, start_call, hf]
              rw [if_pos (by simp [h1])]
              simp only [hac, hq]
              rw [if_pos (by simp [hr])]
              show countActive (insertCallSession (sweepExpired db qsid qnow)
                (newCallSession qsid qdid qpid qnow qnid)) sid ≤ 1
              rw [countActive_insert]
              by_cases hsd : activePred sid (newCallSession qsid qdid qpid qnow qnid) = true
              · rw [if_pos hsd]
                have hqq : qsid = sid := by
                  simpa [activePred, newCallSession, isActiveStatus] using hsd
                have h0 : countActive (sweepExpired db qsid qnow) sid = 0 := by
                  rw [← hqq]
                  exact countActive_zero_of_check_none _ _ hac
                omega
              · rw [if_neg hsd]
                have hle := countActive_sweep_le db qsid qnow sid
                have hdb := hinv sid
                omega
            · simp only [applyOp, dropResult, start_call, hf]
              rw [if_pos (by simp [h1])]
              simp only [hac, hq]
              rw [if_neg (by simpa using hr)]
              exact le_trans (countActive_sweep_le db qsid qnow sid) (hinv sid)
        · simp only [applyOp, dropResult, start_call, hf]
          rw [if_pos (by simp [h1])]
          simp only [hac]
          exact le_trans (countActive_sweep_le db qsid qnow sid) (hinv sid)
      · simp only [applyOp, dropResult, start_call, hf]
        rw [if_neg (by simpa using h1)]
        exact hinv sid
  | joinQueue qsid qpid qnow qnid =>
    simp only [applyOp, dropResult, join_queue]
    split
    · exact hinv sid
    · split
      · exact hinv sid
      · exact hinv sid
  | toggleReady qsid qpid b =>
    simp only [applyOp, toggle_ready]
    split
    · exact hinv sid
    · split
      · exact hinv sid
      · split
        · exact hinv sid
        · exact hinv sid
  | confirmCall cid pid qnow =>
    rcases hf : db.call_sessions.find? (fun c => c.id == cid && c.patientId == pid) with _ | s0
    · simp only [applyOp, confirm_call, hf]
      exact hinv sid
    · by_cases h1 : s0.status = CallSessionStatus.INVITED
      · have hmem := List.mem_of_find?_eq_some hf
        have hpred := List.find?_some hf
        have hid : s0.id = cid := by
          simp only [Bool.and_eq_true, beq_iff_eq] at hpred
          exact hpred.1
        have hf2 : db.call_sessions.find? (fun c => c.id == cid) = some s0 :=
          find?_eq_of_pairwise_ne (fun c : CallSession => c.id) cid db.call_sessions huniq
            s0 hmem hid
        simp only [applyOp, confirm_call, hf]
        rw [if_pos (by simp [h1])]
        obtain ⟨l1, l2, hsplit, hupd⟩ := updateFirst_decomp (fun c => c.id == cid)
          (fun c => { c with status := CallSessionStatus.CONFIRMED, confirmedAt := some qnow })
          db.call_sessions s0 hf2
        show (updateFirst (fun c => c.id == cid)
            (fun c => { c with status := CallSessionStatus.CONFIRMED, confirmedAt := some qnow })
            db.call_sessions |>.filter (activePred sid)).length ≤ 1
        rw [hupd]
        have heq : ((l1 ++ ({ s0 with status := CallSessionStatus.CONFIRMED, confirmedAt := some qnow }) :: l2).filter (activePred sid)).length = ((l1 ++ s0 :: l2).filter (activePred sid)).length := by
          apply length_filter_middle_eq
          simp [activePred, isActiveStatus, h1]
        rw [heq, ← hsplit]
        exact hinv sid
      · simp only [applyOp, confirm_call, hf]
        rw [if_neg (by simpa using h1)]
        exact hinv sid
  | declineCall cid pid qnow =>
    rcases hf : db.call_sessions.find? (fun c => c.id == cid && c.patientId == pid) with _ | s0
    · simp only [applyOp, decline_call, hf]
      exact hinv sid
    · by_cases h1 : s0.status = CallSessionStatus.INVITED
      · simp only [applyOp, decline_call, hf]
        rw [if_pos (by simp [h1])]
        refine le_trans (length_filter_updateFirst_le _ _ _ ?_ db.call_sessions) (hinv sid)
        intro c hc
        simp [activePred, isActiveStatus] at hc
      · simp only [applyOp, decline_call, hf]
        rw [if_neg (by simpa using h1)]
        exact hinv sid
  | endCallDoctor cid did qnow =>
    rcases hf : db.call_sessions.find? (fun c => c.id == cid && c.doctorId == did) with _ | s0
    · simp only [applyOp, end_call_doctor, hf]
      exact hinv sid
    · simp only [applyOp, end_call_doctor, hf]
      refine le_trans (length_filter_updateFirst_le _ _ _ ?_ db.call_sessions) (hinv sid)
      intro c hc
      simp [activePred, isActiveStatus] at hc
  | endCallPatient cid pid qnow =>
    rcases hf : db.call_sessions.find? (fun c => c.id == cid && c.patientId == pid) with _ | s0
    · simp only [applyOp, end_call_patient, hf]
      exact hinv sid
    · simp only [applyOp, end_call_patient, hf]
      refine le_trans (length_filter_updateFirst_le _ _ _ ?_ db.call_sessions) (hinv sid)
      intro c hc
      simp [activePred, isActiveStatus] at hc
  | activateCall cid uid =>
    rcases hf : db.call_sessions.find? (fun c => c.id == cid) with _ | s0
    · simp only [applyOp, activate_call, hf]
      exact hinv sid
    · by_cases h1 : (s0.doctorId == uid || s0.patientId == uid) = true
      · by_cases h2 : s0.status = CallSessionStatus.CONFIRMED
        · simp only [applyOp, activate_call, hf]
          rw [if_pos h1, if_pos (by simp [h2])]
          obtain ⟨l1, l2, hsplit, hupd⟩ := updateFirst_decomp (fun c => c.id == cid)
            (fun c => { c with status := CallSessionStatus.ACTIVE }) db.call_sessions s0 hf
          show (updateFirst (fun c => c.id == cid)
              (fun c => { c with status := CallSessionStatus.ACTIVE })
              db.call_sessions |>.filter (activePred sid)).length ≤ 1
          rw [hupd]
          have heq : ((l1 ++ ({ s0 with status := CallSessionStatus.ACTIVE }) :: l2).filter (activePred sid)).length = ((l1 ++ s0 :: l2).filter (activePred sid)).length := by
            apply length_filter_middle_eq
            simp [activePred, isActiveStatus, h2]
          rw [heq, ← hsplit]
          exact hinv sid
        · simp only [applyOp, activate_call, hf]
          rw [if_pos h1, if_neg (by simpa using h2)]
          exact hinv sid
      · simp only [applyOp, activate_call, hf]
        rw [if_neg h1]
        exact hinv sid
  | setDoctorPeerId cid did pd =>
    rcases hf : db.call_sessions.find? (fun c => c.id == cid && c.doctorId == did) with _ | s0
    · simp only [applyOp, set_doctor_peer_id, hf]
      exact hinv sid
    · simp only [applyOp, set_doctor_peer_id, hf]
      exact le_trans (length_filter_updateFirst_le (activePred sid) (fun c => c.id == cid)
        (fun c => { c with doctorPeerId := some pd }) (fun c hc => hc) db.call_sessions)
        (hinv sid)
  | setPatientPeerId cid pid pd =>
    rcases hf : db.call_sessions.find? (fun c => c.id == cid && c.patientId == pid) with _ | s0
    · simp only [applyOp, set_patient_peer_id, hf]
      exact hinv sid
    · simp only [applyOp, set_patient_peer_id, hf]
      exact le_trans (length_filter_updateFirst_le (activePred sid) (fun c => c.id == cid)
        (fun c => { c with patientPeerId := some pd }) (fun c hc => hc) db.call_sessions)
        (hinv sid)

/-- C1: witness — the invariant holds of exDB1 and is preserved by an
atomically-executed Invite. -/
theorem single_active_call_preserved_witness :
    uniqueIds exDB1 ∧ singleActiveCall exDB1 ∧
    singleActiveCall (applyOp exDB1 (Op.startCall "s1" "d1" "p1" 100 "cA")).2 := by
  have hu : uniqueIds exDB1 := List.Pairwise.nil
  have hi : singleActiveCall exDB1 := fun sid => Nat.zero_le 1
  exact ⟨hu, hi, single_active_call_preserved exDB1 _ hu hi⟩

end MedConsult
